import Mathlib

/-!
Verification of the report aggregation and rendering engine of the Vivisect
repository (`src/core/report.py`, class `ReportGenerator`).

Python dictionaries with string keys and string-rendered values are embedded
as insertion-ordered association lists (`Dict` below); `dict.get(k, dflt)`,
`d[k] = v` (update-in-place-or-append) and `k in d` are embedded as `dget`,
`dset` and `dHasKey`.  Counting dictionaries (`module_counts`,
`severity_counts`, `artifact_types`, hour buckets) are association lists to
`Nat` with the same insertion-order update semantics (`CountMap`).  Calls to
`datetime.now()` are embedded by passing the produced timestamp string as an
explicit argument, and the in-place mutation that `add_finding` /
`add_artifact` / `add_timeline_event` perform on their argument dictionary is
embedded by returning the mutated dictionary alongside the new report state.
File I/O in `save_report` is elided: the function returns the path it would
write to, and `none` models the `UnboundLocalError` raised by the fall-through
`return filepath` when no format branch assigned `filepath`.
-/

namespace Vivisect

/-- A Python dict with string keys, in insertion order. -/
abbrev Dict := List (String × String)

/-- Python `d.get(k, dflt)`. -/
def dget (d : Dict) (k dflt : String) : String :=
  match d with
  | [] => dflt
  | (k1, v) :: rest => if k1 = k then v else dget rest k dflt

/-- Python `d[k] = v`: replaces the value at an existing key in place,
otherwise appends the new key at the end (insertion order). -/
def dset (d : Dict) (k v : String) : Dict :=
  match d with
  | [] => [(k, v)]
  | (k1, v1) :: rest => if k1 = k then (k1, v) :: rest else (k1, v1) :: dset rest k v

/-- Python `k in d`. -/
def dHasKey (d : Dict) (k : String) : Bool :=
  match d with
  | [] => false
  | (k1, _) :: rest => if k1 = k then true else dHasKey rest k

/-- A Python dict counting occurrences (string key to integer count). -/
abbrev CountMap := List (String × Nat)

/-- Python `m.get(k, 0)`. -/
def cmGet (m : CountMap) (k : String) : Nat :=
  match m with
  | [] => 0
  | (k1, v) :: rest => if k1 = k then v else cmGet rest k

/-- Python `m[k] = m.get(k, 0) + 1`. -/
def cmIncr (m : CountMap) (k : String) : CountMap :=
  match m with
  | [] => [(k, 1)]
  | (k1, v) :: rest => if k1 = k then (k1, v + 1) :: rest else (k1, v) :: cmIncr rest k

/-- Python `k in m`. -/
def cmHasKey (m : CountMap) (k : String) : Bool :=
  match m with
  | [] => false
  | (k1, _) :: rest => if k1 = k then true else cmHasKey rest k

/-- Python `sum(m.values())`. -/
def sumValues (m : CountMap) : Nat := (m.map (fun p => p.2)).sum

/-- The report dict built by `ReportGenerator.create_report`
(`report.py` lines 16-28). -/
structure Report where
  case_id : String
  timestamp : String
  hostname : String
  vivisect_version : String
  modules : Dict
  findings : List Dict
  artifacts : List Dict
  timeline : List Dict
deriving DecidableEq

/-- `ReportGenerator.create_report` (`report.py` lines 16-28): builds the
fresh report dict.  `now` embeds `datetime.now().isoformat()` and `hostname`
embeds `os.uname().nodename`; the unused `report_type` parameter is dropped.
The function performs no validation of `case_id`. -/
def create_report (case_id now hostname : String) : Report :=
  { case_id := case_id
    timestamp := now
    hostname := hostname
    vivisect_version := "1.0.0"
    modules := []
    findings := []
    artifacts := []
    timeline := [] }

/-- `ReportGenerator.add_finding` (`report.py` lines 30-34): mutates the
caller's finding dict (`finding['module'] = module`;
`finding['timestamp'] = datetime.now().isoformat()`) and appends that same
dict to `report['findings']`.  The mutated dict is returned as the second
component to model the in-place mutation. -/
def add_finding (report : Report) (module : String) (finding : Dict) (now : String) :
    Report × Dict :=
  let f := dset (dset finding "module" module) "timestamp" now
  ({ report with findings := report.findings ++ [f] }, f)

/-- `ReportGenerator.add_artifact` (`report.py` lines 36-39): mutates the
caller's artifact dict (`artifact['timestamp'] = datetime.now().isoformat()`)
and appends that same dict to `report['artifacts']`. -/
def add_artifact (report : Report) (artifact : Dict) (now : String) : Report × Dict :=
  let a := dset artifact "timestamp" now
  ({ report with artifacts := report.artifacts ++ [a] }, a)

/-- `ReportGenerator.add_timeline_event` (`report.py` lines 41-45): stamps
`event['timestamp']` only when the key is absent, then appends the dict to
`report['timeline']`. -/
def add_timeline_event (report : Report) (event : Dict) (now : String) : Report × Dict :=
  let e := if dHasKey event "timestamp" then event else dset event "timestamp" now
  ({ report with timeline := report.timeline ++ [e] }, e)

/-- The module-count loop of `_prepare_visualization_data`
(`report.py` lines 575-579). -/
def module_counts_of (findings : List Dict) : CountMap :=
  findings.foldl (fun m f => cmIncr m (dget f "module" "Unknown")) []

/-- The dict literal that seeds the severity loop (`report.py` line 582). -/
def severity_init : CountMap :=
  [("Critical", 0), ("High", 0), ("Medium", 0), ("Low", 0), ("Info", 0)]

/-- One iteration of the severity loop (`report.py` lines 583-588):
`severity = finding.get('severity', 'Info')`; recognized severities count
under themselves, anything else counts under `'Info'`. -/
def severity_step (m : CountMap) (f : Dict) : CountMap :=
  if cmHasKey m (dget f "severity" "Info") then cmIncr m (dget f "severity" "Info")
  else cmIncr m "Info"

/-- The severity a finding is counted under by the loop at `report.py`
lines 583-588: its own `severity` value when that value is a key of the
five-key dict, otherwise `'Info'`. -/
def coerce_sev (f : Dict) : String :=
  if cmHasKey severity_init (dget f "severity" "Info") then dget f "severity" "Info"
  else "Info"

/-- The severity-count loop of `_prepare_visualization_data`
(`report.py` lines 581-588). -/
def severity_counts_of (findings : List Dict) : CountMap :=
  findings.foldl severity_step severity_init

/-- The artifact-type loop of `_prepare_visualization_data`
(`report.py` lines 590-594). -/
def artifact_types_of (artifacts : List Dict) : CountMap :=
  artifacts.foldl (fun m a => cmIncr m (dget a "type" "Unknown")) []

/-- Python code-point lexicographic comparison of character lists, the order
underlying Python string `<`. -/
def charListLt : List Char → List Char → Bool
  | _, [] => false
  | [], _ :: _ => true
  | a :: as, b :: bs => if a < b then true else if a = b then charListLt as bs else false

/-- Python string `<`. -/
def strLt (a b : String) : Bool := charListLt a.data b.data

/-- Python string `<=` (total order: `a <= b` iff not `b < a`). -/
def strLe (a b : String) : Bool := ! strLt b a

/-- The sort key `lambda x: x.get('timestamp', '')` used by both timeline
sorts (`report.py` lines 622 and 755). -/
def tkey (e : Dict) : String := dget e "timestamp" ""

/-- Insert into an ascending-sorted list, keeping earlier-inserted elements
first among equal keys (the stability guarantee of Python `sorted`). -/
def insertAsc (e : Dict) : List Dict → List Dict
  | [] => [e]
  | x :: xs => if strLe (tkey e) (tkey x) then e :: x :: xs else x :: insertAsc e xs

/-- Insert into a descending-sorted list, keeping earlier-inserted elements
first among equal keys (the stability guarantee of Python
`sorted(..., reverse=True)`). -/
def insertDesc (e : Dict) : List Dict → List Dict
  | [] => [e]
  | x :: xs => if strLe (tkey x) (tkey e) then e :: x :: xs else x :: insertDesc e xs

/-- `ReportGenerator._prepare_timeline_data` (`report.py` lines 620-623):
`sorted(timeline, key=lambda x: x.get('timestamp', ''))`, a stable ascending
sort by timestamp string. -/
def prepare_timeline_data (timeline : List Dict) : List Dict :=
  timeline.foldr insertAsc []

/-- The iteration order of `_generate_timeline_html` (`report.py` line 755):
`sorted(timeline, key=lambda x: x.get('timestamp', ''), reverse=True)`, a
stable descending sort by timestamp string. -/
def timeline_detail_order (timeline : List Dict) : List Dict :=
  timeline.foldr insertDesc []

/-- The `viz_data` dict returned by `_prepare_visualization_data`
(`report.py` lines 610-618). -/
structure VizData where
  module_counts : CountMap
  severity_counts : CountMap
  artifact_types : CountMap
  critical_findings : Nat
  severity_class : String
  critical_class : String
  timeline_data : List Dict
deriving DecidableEq

/-- `ReportGenerator._prepare_visualization_data` (`report.py` lines 569-618).
`critical_findings` is `severity_counts.get('Critical', 0)` and the class
strings follow the branch at lines 600-608: `'critical'` when there is a
Critical finding, else `'warning'` when there is a High finding, else
`'success'`; both class fields get the same value in every branch. -/
def prepare_visualization_data (report : Report) : VizData :=
  { module_counts := module_counts_of report.findings
    severity_counts := severity_counts_of report.findings
    artifact_types := artifact_types_of report.artifacts
    critical_findings := cmGet (severity_counts_of report.findings) "Critical"
    severity_class :=
      if cmGet (severity_counts_of report.findings) "Critical" > 0 then "critical"
      else if cmGet (severity_counts_of report.findings) "High" > 0 then "warning"
      else "success"
    critical_class :=
      if cmGet (severity_counts_of report.findings) "Critical" > 0 then "critical"
      else if cmGet (severity_counts_of report.findings) "High" > 0 then "warning"
      else "success"
    timeline_data := prepare_timeline_data report.timeline }

/-- The placeholder returned by `_generate_module_chart` when
`module_counts` is empty (`report.py` line 630). -/
def module_chart_placeholder : String :=
  "<div class=\"chart-container\"><p class=\"no-data\">No module data available</p></div>"

/-- The chart markup returned by `_generate_module_chart` otherwise
(`report.py` lines 632-639; whitespace and decorative glyphs elided). -/
def module_chart_canvas : String :=
  "<div class=\"chart-container\"><h2>Findings by Module</h2><div class=\"chart-wrapper\"><canvas id=\"moduleChart\"></canvas></div></div>"

/-- `ReportGenerator._generate_module_chart` (`report.py` lines 625-639). -/
def generate_module_chart (viz : VizData) : String :=
  if viz.module_counts.isEmpty then module_chart_placeholder else module_chart_canvas

/-- The placeholder returned by `_generate_severity_chart` when the severity
counts sum to zero (`report.py` line 647). -/
def severity_chart_placeholder : String :=
  "<div class=\"chart-container\"><p class=\"no-data\">No severity data available</p></div>"

/-- The chart markup returned by `_generate_severity_chart` otherwise
(`report.py` lines 649-656; whitespace and decorative glyphs elided). -/
def severity_chart_canvas : String :=
  "<div class=\"chart-container\"><h2>Findings by Severity</h2><div class=\"chart-wrapper\"><canvas id=\"severityChart\"></canvas></div></div>"

/-- `ReportGenerator._generate_severity_chart` (`report.py` lines 641-656):
`total = sum(severity_counts.values())`; the placeholder is returned when
`total == 0`. -/
def generate_severity_chart (viz : VizData) : String :=
  if sumValues viz.severity_counts = 0 then severity_chart_placeholder
  else severity_chart_canvas

/-- The placeholder returned by `_generate_file_type_chart` when
`artifact_types` is empty (`report.py` line 679). -/
def file_type_chart_placeholder : String :=
  "<div class=\"chart-container\"><p class=\"no-data\">No artifact type data available</p></div>"

/-- The chart markup returned by `_generate_file_type_chart` otherwise
(`report.py` lines 681-688; whitespace and decorative glyphs elided). -/
def file_type_chart_canvas : String :=
  "<div class=\"chart-container\"><h2>Artifact Types Distribution</h2><div class=\"chart-wrapper\"><canvas id=\"fileTypeChart\"></canvas></div></div>"

/-- `ReportGenerator._generate_file_type_chart` (`report.py` lines 674-688). -/
def generate_file_type_chart (viz : VizData) : String :=
  if viz.artifact_types.isEmpty then file_type_chart_placeholder
  else file_type_chart_canvas

/-- One timeline entry of `_generate_timeline_html`
(`report.py` lines 758-770; whitespace elided). -/
def timeline_item_html (e : Dict) : String :=
  "<div class=\"timeline-item\"><div class=\"timeline-time\">" ++ dget e "timestamp" "N/A"
    ++ "</div><div class=\"timeline-description\"><strong>" ++ dget e "type" "Event"
    ++ ":</strong> " ++ dget e "description" "N/A" ++ "</div></div>"

/-- The timeline grid markup of `_generate_timeline_html`
(`report.py` lines 757-771). -/
def timeline_grid_html (events : List Dict) : String :=
  "<div class=\"timeline-grid\">" ++ String.join (events.map timeline_item_html) ++ "</div>"

/-- `ReportGenerator._generate_timeline_html` (`report.py` lines 749-772):
empty timelines yield the no-data paragraph; otherwise the events are listed
in descending timestamp order. -/
def generate_timeline_html (timeline : List Dict) : String :=
  if timeline.isEmpty then "<p class=\"no-data\">No timeline events to display</p>"
  else timeline_grid_html (timeline_detail_order timeline)

/-- Characters of the Python `split('T')[1]` segment: everything after the
first `'T'` up to (not including) the next `'T'`. -/
def upToT : List Char → List Char
  | [] => []
  | c :: cs => if c = 'T' then [] else c :: upToT cs

/-- Python `timestamp.split('T')[1][:2]` when `'T' in timestamp`, `none`
otherwise: the first two characters of the segment after the first `'T'`. -/
def hourAfterT : List Char → Option (List Char)
  | [] => none
  | c :: cs => if c = 'T' then some ((upToT cs).take 2) else hourAfterT cs

/-- The hour string of `_generate_chart_scripts` line 916:
`timestamp.split('T')[1][:2] if 'T' in timestamp else '00'`. -/
def event_hour (ts : String) : String :=
  match hourAfterT ts.data with
  | some h => ⟨h⟩
  | none => "00"

/-- One iteration of the hour-bucket grouping loop of
`_generate_chart_scripts` (`report.py` lines 909-919): an event with a
non-empty timestamp counts under the bucket `hour + ':00'`; events with an
empty (or absent) timestamp are skipped by the `if timestamp:` guard.  The
`except` clause at line 918 is unreachable because `split('T')[1][:2]`
cannot raise once `'T' in timestamp` holds. -/
def hour_step (m : CountMap) (e : Dict) : CountMap :=
  if dget e "timestamp" "" = "" then m
  else cmIncr m (event_hour (dget e "timestamp" "") ++ ":00")

/-- The hour-bucket grouping of `_generate_chart_scripts`
(`report.py` lines 909-919), the loop whose body is `hour_step`. -/
def timeline_counts (timeline_data : List Dict) : CountMap :=
  timeline_data.foldl hour_step []

/-- The bucket an event falls into, `none` when the event is skipped.
This restates the per-event behaviour of `hour_step` and is used to express
what `timeline_counts` counts. -/
def event_bucket (e : Dict) : Option String :=
  if dget e "timestamp" "" = "" then none
  else some (event_hour (dget e "timestamp" "") ++ ":00")

/-- `ReportGenerator.save_report` (`report.py` lines 47-72).  `save_stamp`
embeds `datetime.now().strftime('%Y%m%d_%H%M%S')` captured at save time and
`output_dir` is the generator's output directory; `os.path.join` is embedded
as path concatenation.  The report dict built by `create_report` always
carries `case_id`, so `report.get('case_id', 'unknown')` is `report.case_id`.
For a format other than `'json'`, `'html'` and `'txt'` no branch assigns
`filepath` and the final `return filepath` raises `UnboundLocalError`;
that failure is embedded as `none`. -/
def save_report (output_dir : String) (report : Report) (format_type : String)
    (save_stamp : String) : Option String :=
  let case_id := report.case_id
  if format_type = "json" then
    some (output_dir ++ "/" ++ case_id ++ "_" ++ save_stamp ++ "_report.json")
  else if format_type = "html" then
    some (output_dir ++ "/" ++ case_id ++ "_" ++ save_stamp ++ "_report.html")
  else if format_type = "txt" then
    some (output_dir ++ "/" ++ case_id ++ "_" ++ save_stamp ++ "_report.txt")
  else none

/-! Helper lemmas about the dict and counting-dict embeddings. -/

theorem dget_dset_same (d : Dict) (k v dflt : String) : dget (dset d k v) k dflt = v := by
  induction d with
  | nil => simp [dset, dget]
  | cons p rest ih =>
    obtain ⟨k1, v1⟩ := p
    by_cases h : k1 = k
    · subst h; simp [dset, dget]
    · simp [dset, dget, h, ih]

theorem dget_dset_ne (d : Dict) (k v j dflt : String) (h : j ≠ k) :
    dget (dset d k v) j dflt = dget d j dflt := by
  induction d with
  | nil => simp [dset, dget, Ne.symm h]
  | cons p rest ih =>
    obtain ⟨k1, v1⟩ := p
    by_cases h1 : k1 = k
    · subst h1; simp [dset, dget, Ne.symm h]
    · simp [dset, dget, h1, ih]

theorem cmGet_cmIncr_same (m : CountMap) (k : String) :
    cmGet (cmIncr m k) k = cmGet m k + 1 := by
  induction m with
  | nil => simp [cmIncr, cmGet]
  | cons p rest ih =>
    obtain ⟨k1, v⟩ := p
    by_cases h : k1 = k
    · subst h; simp [cmIncr, cmGet]
    · simp [cmIncr, cmGet, h, ih]

theorem cmGet_cmIncr_ne (m : CountMap) (k j : String) (h : j ≠ k) :
    cmGet (cmIncr m k) j = cmGet m j := by
  induction m with
  | nil => simp [cmIncr, cmGet, Ne.symm h]
  | cons p rest ih =>
    obtain ⟨k1, v⟩ := p
    by_cases h1 : k1 = k
    · subst h1; simp [cmIncr, cmGet, Ne.symm h]
    · simp [cmIncr, cmGet, h1, ih]

theorem cmHasKey_cmIncr_of_mem (m : CountMap) (k : String) (h : cmHasKey m k = true)
    (j : String) : cmHasKey (cmIncr m k) j = cmHasKey m j := by
  induction m with
  | nil => simp [cmHasKey] at h
  | cons p rest ih =>
    obtain ⟨k1, v⟩ := p
    by_cases h1 : k1 = k
    · subst h1; simp [cmIncr, cmHasKey]
    · have h2 : cmHasKey rest k = true := by simpa [cmHasKey, h1] using h
      simp [cmIncr, cmHasKey, h1, ih h2]

theorem cmHasKey_severity_init (s : String) :
    cmHasKey severity_init s = true
      ↔ s ∈ (["Critical", "High", "Medium", "Low", "Info"] : List String) := by
  simp only [severity_init, cmHasKey, List.mem_cons, List.not_mem_nil, or_false]
  split_ifs with h1 h2 h3 h4 h5 <;> simp_all [eq_comm]

theorem coerce_sev_mem (f : Dict) : cmHasKey severity_init (coerce_sev f) = true := by
  unfold coerce_sev
  by_cases h : cmHasKey severity_init (dget f "severity" "Info") = true
  · simp [h]
  · simp only [h, if_false, Bool.false_eq_true]
    rfl

/-! Correctness of the severity-count loop. -/

theorem severity_foldl_keys (fs : List Dict) : ∀ (m : CountMap),
    (∀ j, cmHasKey m j = cmHasKey severity_init j) →
    ∀ j, cmHasKey (List.foldl severity_step m fs) j = cmHasKey severity_init j := by
  induction fs with
  | nil => intro m hm j; simpa using hm j
  | cons f fs ih =>
    intro m hm j
    rw [List.foldl_cons]
    have hstep : severity_step m f = cmIncr m (coerce_sev f) := by
      unfold severity_step coerce_sev
      rw [hm]
      by_cases h : cmHasKey severity_init (dget f "severity" "Info") = true
      · simp [h]
      · simp [h]
    rw [hstep]
    have hmem : cmHasKey m (coerce_sev f) = true := by
      rw [hm]; exact coerce_sev_mem f
    exact ih (cmIncr m (coerce_sev f))
      (fun j2 => by rw [cmHasKey_cmIncr_of_mem m _ hmem j2, hm]) j

theorem severity_foldl_count (fs : List Dict) : ∀ (m : CountMap) (s : String),
    (∀ j, cmHasKey m j = cmHasKey severity_init j) →
    cmGet (List.foldl severity_step m fs) s
      = cmGet m s + fs.countP (fun f => coerce_sev f == s) := by
  induction fs with
  | nil => intro m s hm; simp
  | cons f fs ih =>
    intro m s hm
    rw [List.foldl_cons]
    have hstep : severity_step m f = cmIncr m (coerce_sev f) := by
      unfold severity_step coerce_sev
      rw [hm]
      by_cases h : cmHasKey severity_init (dget f "severity" "Info") = true
      · simp [h]
      · simp [h]
    have hmem : cmHasKey m (coerce_sev f) = true := by
      rw [hm]; exact coerce_sev_mem f
    rw [hstep, ih (cmIncr m (coerce_sev f)) s
      (fun j => by rw [cmHasKey_cmIncr_of_mem m _ hmem j, hm])]
    rw [List.countP_cons]
    by_cases hc : coerce_sev f = s
    · subst hc; rw [cmGet_cmIncr_same]; simp; omega
    · rw [cmGet_cmIncr_ne m _ s (fun he => hc he.symm)]
      simp [hc]

theorem severity_counts_get (fs : List Dict) (s : String) :
    cmGet (severity_counts_of fs) s
      = cmGet severity_init s + fs.countP (fun f => coerce_sev f == s) :=
  severity_foldl_count fs severity_init s (fun _ => rfl)

theorem coerce_sev_eq_of_key (f : Dict) (s : String)
    (h1 : cmHasKey severity_init s = true) (h2 : s ≠ "Info") :
    coerce_sev f = s ↔ dget f "severity" "Info" = s := by
  unfold coerce_sev
  by_cases h : cmHasKey severity_init (dget f "severity" "Info") = true
  · simp [h]
  · simp only [h, if_false]
    constructor
    · intro he; exact absurd he.symm h2
    · intro he; rw [he] at h; exact absurd h1 h

theorem severity_crit_pos (fs : List Dict) :
    0 < cmGet (severity_counts_of fs) "Critical"
      ↔ ∃ f ∈ fs, dget f "severity" "Info" = "Critical" := by
  rw [severity_counts_get]
  have h0 : cmGet severity_init "Critical" = 0 := rfl
  rw [h0, Nat.zero_add, List.countP_pos_iff]
  constructor
  · rintro ⟨f, hf, hp⟩
    exact ⟨f, hf, (coerce_sev_eq_of_key f "Critical" rfl (by decide)).mp (by simpa using hp)⟩
  · rintro ⟨f, hf, hp⟩
    exact ⟨f, hf, by
      simpa using (coerce_sev_eq_of_key f "Critical" rfl (by decide)).mpr hp⟩

/-! Correctness of the hour-bucket loop. -/

theorem timeline_counts_foldl (tl : List Dict) : ∀ (m : CountMap) (k : String),
    cmGet (List.foldl hour_step m tl) k
      = cmGet m k + tl.countP (fun e => event_bucket e == some k) := by
  induction tl with
  | nil => intro m k; simp
  | cons e tl ih =>
    intro m k
    rw [List.foldl_cons, ih, List.countP_cons]
    by_cases h0 : dget e "timestamp" "" = ""
    · simp [hour_step, event_bucket, h0]
    · by_cases hk : event_hour (dget e "timestamp" "") ++ ":00" = k
      · simp only [hour_step, h0, if_false, event_bucket, hk]
        rw [cmGet_cmIncr_same]
        simp; omega
      · simp only [hour_step, h0, if_false, event_bucket]
        rw [cmGet_cmIncr_ne m _ k (fun he => hk he.symm)]
        simp [hk]

/-! The Python string order: asymmetry and transitivity. -/

theorem charListLt_asymm (a : List Char) : ∀ b, charListLt a b = true → charListLt b a = false := by
  induction a with
  | nil =>
    intro b h
    cases b with
    | nil => simp [charListLt] at h
    | cons c cs => simp [charListLt]
  | cons x xs ih =>
    intro b h
    cases b with
    | nil => simp [charListLt] at h
    | cons y ys =>
      simp only [charListLt] at h ⊢
      by_cases h1 : x < y
      · have h2 : ¬ y < x := lt_asymm h1
        have h3 : ¬ y = x := fun he => absurd h1 (by rw [he]; exact lt_irrefl x)
        simp [h2, h3]
      · by_cases h2 : x = y
        · subst h2
          simp only [lt_irrefl, if_false, if_pos rfl] at h ⊢
          exact ih ys h
        · simp [h1, h2] at h

theorem charListLt_trans (a : List Char) :
    ∀ b c, charListLt a b = true → charListLt b c = true → charListLt a c = true := by
  induction a with
  | nil =>
    intro b c _ hbc
    cases c with
    | nil =>
      cases b with
      | nil => simp [charListLt] at hbc
      | cons y ys => simp [charListLt] at hbc
    | cons z zs => simp [charListLt]
  | cons x xs ih =>
    intro b c hab hbc
    cases b with
    | nil => simp [charListLt] at hab
    | cons y ys =>
      cases c with
      | nil => simp [charListLt] at hbc
      | cons z zs =>
        simp only [charListLt] at hab hbc ⊢
        by_cases h1 : x < y
        · by_cases h2 : y < z
          · simp [lt_trans h1 h2]
          · by_cases h3 : y = z
            · subst h3; simp [h1]
            · simp [h2, h3] at hbc
        · by_cases h2 : x = y
          · subst h2
            simp only [lt_irrefl, if_false, if_pos rfl] at hab
            by_cases h3 : x < z
            · simp [h3]
            · by_cases h4 : x = z
              · subst h4
                simp only [lt_irrefl, if_false, if_pos rfl] at hbc ⊢
                exact ih ys zs hab hbc
              · simp [h3, h4] at hbc
          · simp [h1, h2] at hab

theorem strLt_trans {a b c : String} (h1 : strLt a b = true) (h2 : strLt b c = true) :
    strLt a c = true :=
  charListLt_trans a.data b.data c.data h1 h2

theorem strLe_of_lt {a b : String} (h : strLt a b = true) : strLe a b = true := by
  simp [strLe, strLt, charListLt_asymm a.data b.data h]

theorem strLe_false_of_lt {a b : String} (h : strLt a b = true) : strLe b a = false := by
  simp [strLe, h]

/-! Enumerating the permutations of two- and three-element lists. -/

theorem perm_two {α : Type} {l : List α} {x y : α} (h : l.Perm [x, y]) :
    l = [x, y] ∨ l = [y, x] := by
  have hlen : l.length = 2 := by simpa using h.length_eq
  obtain ⟨a, b, rfl⟩ := List.length_eq_two.mp hlen
  have ha : a ∈ [x, y] := h.subset (List.mem_cons_self a [b])
  rcases (by simpa using ha : a = x ∨ a = y) with ha2 | ha2
  · left
    rw [ha2] at h
    have h2 : [b].Perm [y] := h.cons_inv
    rw [ha2, List.perm_singleton.mp h2]
  · right
    rw [ha2] at h
    have hswap : ([x, y] : List α).Perm [y, x] := List.Perm.swap y x []
    have h2 : [b].Perm [x] := (h.trans hswap).cons_inv
    rw [ha2, List.perm_singleton.mp h2]

theorem perm_three {α : Type} {l : List α} {x y z : α} (h : l.Perm [x, y, z]) :
    l = [x, y, z] ∨ l = [x, z, y] ∨ l = [y, x, z] ∨ l = [y, z, x] ∨
      l = [z, x, y] ∨ l = [z, y, x] := by
  have hlen : l.length = 3 := by simpa using h.length_eq
  obtain ⟨a, b, c, rfl⟩ := List.length_eq_three.mp hlen
  have ha : a ∈ [x, y, z] := h.subset (List.mem_cons_self a [b, c])
  rcases (by simpa using ha : a = x ∨ a = y ∨ a = z) with ha2 | ha2 | ha2
  · rw [ha2] at h
    have h2 : [b, c].Perm [y, z] := h.cons_inv
    rcases perm_two h2 with h3 | h3
    · left; rw [ha2, h3]
    · right; left; rw [ha2, h3]
  · rw [ha2] at h
    have hsw : ([x, y, z] : List α).Perm [y, x, z] := List.Perm.swap y x [z]
    have h2 : [b, c].Perm [x, z] := (h.trans hsw).cons_inv
    rcases perm_two h2 with h3 | h3
    · right; right; left; rw [ha2, h3]
    · right; right; right; left; rw [ha2, h3]
  · rw [ha2] at h
    have p1 : ([x, y, z] : List α).Perm [x, z, y] := List.Perm.cons x (List.Perm.swap z y [])
    have p2 : ([x, z, y] : List α).Perm [z, x, y] := List.Perm.swap z x [y]
    have h2 : [b, c].Perm [x, y] := (h.trans (p1.trans p2)).cons_inv
    rcases perm_two h2 with h3 | h3
    · right; right; right; right; left; rw [ha2, h3]
    · right; right; right; right; right; rw [ha2, h3]

theorem severity_high_pos (fs : List Dict) :
    0 < cmGet (severity_counts_of fs) "High"
      ↔ ∃ f ∈ fs, dget f "severity" "Info" = "High" := by
  rw [severity_counts_get]
  have h0 : cmGet severity_init "High" = 0 := rfl
  rw [h0, Nat.zero_add, List.countP_pos_iff]
  constructor
  · rintro ⟨f, hf, hp⟩
    exact ⟨f, hf, (coerce_sev_eq_of_key f "High" rfl (by decide)).mp (by simpa using hp)⟩
  · rintro ⟨f, hf, hp⟩
    exact ⟨f, hf, by
      simpa using (coerce_sev_eq_of_key f "High" rfl (by decide)).mpr hp⟩

/-! Claim theorems. -/

/-- Claim C1 (counterexample): on an empty Report the severity counts sum to
zero, so `_generate_severity_chart` returns the "no data" placeholder instead
of rendering the five zero-valued slices; the claim that the severity chart is
never replaced by a placeholder is false. -/
theorem severity_chart_empty_is_placeholder :
    generate_severity_chart
        (prepare_visualization_data (create_report "CASE" "2024-01-01T00:00:00" "host"))
      = severity_chart_placeholder ∧
    severity_chart_placeholder ≠ severity_chart_canvas :=
  ⟨rfl, by decide⟩

/-- Claim C1 (amended): `aggregate` on an empty Report yields `by_severity`
with all five keys present at 0, and the visual renderer emits the "no data"
placeholder for the findings-by-module chart, the artifact-type chart, and
also for the severity chart, whose counts sum to zero. -/
theorem empty_report_chart_guard (case_id now hostname : String) :
    (prepare_visualization_data (create_report case_id now hostname)).severity_counts
        = [("Critical", 0), ("High", 0), ("Medium", 0), ("Low", 0), ("Info", 0)] ∧
    generate_module_chart (prepare_visualization_data (create_report case_id now hostname))
        = module_chart_placeholder ∧
    generate_file_type_chart (prepare_visualization_data (create_report case_id now hostname))
        = file_type_chart_placeholder ∧
    generate_severity_chart (prepare_visualization_data (create_report case_id now hostname))
        = severity_chart_placeholder :=
  ⟨rfl, rfl, rfl, rfl⟩

/-- Claim C2 (counterexample): on a Report with neither Critical nor High
findings the derived class is the string `"success"`, not `"normal"`. -/
theorem severity_class_not_normal :
    (prepare_visualization_data (create_report "CASE" "t" "h")).severity_class = "success" ∧
    (prepare_visualization_data (create_report "CASE" "t" "h")).severity_class ≠ "normal" :=
  ⟨rfl, by decide⟩

/-- Claim C2 (amended): for every Report the derived overall severity class
follows the two-step precedence: `"critical"` if at least one finding has
severity Critical, otherwise `"warning"` if at least one finding has severity
High, otherwise `"success"` (the code's name for the normal state). -/
theorem overall_severity_class_spec (r : Report) :
    (prepare_visualization_data r).severity_class =
      if ∃ f ∈ r.findings, dget f "severity" "Info" = "Critical" then "critical"
      else if ∃ f ∈ r.findings, dget f "severity" "Info" = "High" then "warning"
      else "success" := by
  have hc := severity_crit_pos r.findings
  have hh := severity_high_pos r.findings
  dsimp only [prepare_visualization_data]
  split_ifs with h1 h2 h3 h4 h5 <;> first
    | rfl
    | (exact absurd (hc.mp (by omega)) (by assumption))
    | (exact absurd (hc.mpr (by assumption)) (by omega))
    | (exact absurd (hh.mp (by omega)) (by assumption))
    | (exact absurd (hh.mpr (by assumption)) (by omega))

/-- Claim C3 (code bug): `save_report` on an unsupported format does not
raise a dedicated unsupported-format error: no branch assigns `filepath` and
the trailing `return filepath` raises `UnboundLocalError`, embedded as
`none`. -/
theorem save_report_unknown_format_eval :
    save_report "/var/lib/vivisect/output"
        (create_report "CASE-1" "2024-01-01T00:00:00" "host") "xml" "20240101_000000"
      = none :=
  rfl

/-- Claim C4 (counterexample): `create_report` performs no validation, so an
empty `case_id` does not fail: it returns the ordinary fresh Report carrying
the empty string. -/
theorem create_report_empty_case_id_succeeds :
    create_report "" "2024-01-01T00:00:00" "host"
      = { case_id := "", timestamp := "2024-01-01T00:00:00", hostname := "host",
          vivisect_version := "1.0.0", modules := [], findings := [],
          artifacts := [], timeline := [] } :=
  rfl

/-- Claim C4 (amended): for every `case_id` (empty included) creation
succeeds, preserving `case_id` verbatim, stamping `created_at` with the
creation-time timestamp, and starting all three sequences empty. -/
theorem create_report_total (case_id now hostname : String) :
    (create_report case_id now hostname).case_id = case_id ∧
    (create_report case_id now hostname).timestamp = now ∧
    (create_report case_id now hostname).findings = [] ∧
    (create_report case_id now hostname).artifacts = [] ∧
    (create_report case_id now hostname).timeline = [] :=
  ⟨rfl, rfl, rfl, rfl, rfl⟩

/-- Claim C5 (counterexample): a timeline event whose non-empty timestamp has
no `'T'` separator (no extractable hour substring) is not excluded: the code
counts it under the bucket `"00:00"`. -/
theorem unparseable_timestamp_counted :
    timeline_counts [[("timestamp", "garbage")]] = [("00:00", 1)] ∧
    cmGet (timeline_counts [[("timestamp", "garbage")]]) "00:00" = 1 :=
  ⟨rfl, rfl⟩

/-- Claim C5 (amended): the hour-bucket statistic counts every event with a
non-empty timestamp: under `HH:00` where `HH` is the (up to) two characters
after the first `'T'` when the timestamp contains one, and under `"00:00"`
otherwise; only events with an empty or absent timestamp are excluded.
`event_bucket` is exactly this per-event bucket. -/
theorem activity_by_hour_count (tl : List Dict) (k : String) :
    cmGet (timeline_counts tl) k = tl.countP (fun e => event_bucket e == some k) := by
  have h := timeline_counts_foldl tl [] k
  simpa [timeline_counts, cmGet] using h

/-- Claim C6: for a Report whose three timeline events have strictly
increasing timestamps (Python string comparison), `_prepare_timeline_data`
lists them ascending while `_generate_timeline_html` renders them descending,
whatever their insertion order. -/
theorem timeline_ordering (e1 e2 e3 : Dict) (tl : List Dict)
    (hp : tl.Perm [e1, e2, e3])
    (h12 : strLt (tkey e1) (tkey e2) = true)
    (h23 : strLt (tkey e2) (tkey e3) = true) :
    prepare_timeline_data tl = [e1, e2, e3] ∧
    timeline_detail_order tl = [e3, e2, e1] ∧
    generate_timeline_html tl = timeline_grid_html [e3, e2, e1] := by
  have h13 : strLt (tkey e1) (tkey e3) = true := strLt_trans h12 h23
  have l12 : strLe (tkey e1) (tkey e2) = true := strLe_of_lt h12
  have l13 : strLe (tkey e1) (tkey e3) = true := strLe_of_lt h13
  have l23 : strLe (tkey e2) (tkey e3) = true := strLe_of_lt h23
  have n21 : strLe (tkey e2) (tkey e1) = false := strLe_false_of_lt h12
  have n31 : strLe (tkey e3) (tkey e1) = false := strLe_false_of_lt h13
  have n32 : strLe (tkey e3) (tkey e2) = false := strLe_false_of_lt h23
  rcases perm_three hp with h | h | h | h | h | h <;> subst h <;>
    refine ⟨?_, ?_, ?_⟩ <;>
      simp [prepare_timeline_data, timeline_detail_order, insertAsc, insertDesc,
        generate_timeline_html, l12, l13, l23, n21, n31, n32]

/-- Claim C6 (witness): three concrete events with timestamps
T01 < T02 < T03 inserted in the order [T02, T03, T01]. -/
theorem timeline_ordering_witness :
    prepare_timeline_data [[("timestamp", "T02")], [("timestamp", "T03")], [("timestamp", "T01")]]
        = [[("timestamp", "T01")], [("timestamp", "T02")], [("timestamp", "T03")]] ∧
    timeline_detail_order [[("timestamp", "T02")], [("timestamp", "T03")], [("timestamp", "T01")]]
        = [[("timestamp", "T03")], [("timestamp", "T02")], [("timestamp", "T01")]] ∧
    generate_timeline_html [[("timestamp", "T02")], [("timestamp", "T03")], [("timestamp", "T01")]]
        = timeline_grid_html
            [[("timestamp", "T03")], [("timestamp", "T02")], [("timestamp", "T01")]] :=
  timeline_ordering [("timestamp", "T01")] [("timestamp", "T02")] [("timestamp", "T03")]
    [[("timestamp", "T02")], [("timestamp", "T03")], [("timestamp", "T01")]]
    (by decide) (by decide) (by decide)

/-- Claim C7: a finding whose severity lies outside the five-value
enumeration is neither rejected nor dropped: it is appended to the findings
sequence, and the severity distribution counts it under `"Info"`. -/
theorem severity_coercion (r : Report) (module now : String) (finding : Dict)
    (h : dget finding "severity" "Info"
        ∉ (["Critical", "High", "Medium", "Low", "Info"] : List String)) :
    (add_finding r module finding now).1.findings
        = r.findings ++ [(add_finding r module finding now).2] ∧
    cmGet (prepare_visualization_data (add_finding r module finding now).1).severity_counts
        "Info"
      = cmGet (prepare_visualization_data r).severity_counts "Info" + 1 := by
  refine ⟨rfl, ?_⟩
  have hkey : cmHasKey severity_init (dget finding "severity" "Info") = false := by
    rcases hb : cmHasKey severity_init (dget finding "severity" "Info") with _ | _
    · rfl
    · exact absurd ((cmHasKey_severity_init _).mp hb) h
  have hsev : dget (add_finding r module finding now).2 "severity" "Info"
      = dget finding "severity" "Info" := by
    show dget (dset (dset finding "module" module) "timestamp" now) "severity" "Info"
        = dget finding "severity" "Info"
    rw [dget_dset_ne _ _ _ _ _ (by decide), dget_dset_ne _ _ _ _ _ (by decide)]
  have hco : coerce_sev (add_finding r module finding now).2 = "Info" := by
    unfold coerce_sev
    rw [hsev, hkey]
    simp
  dsimp only [prepare_visualization_data]
  show cmGet (severity_counts_of (r.findings ++ [(add_finding r module finding now).2]))
      "Info" = cmGet (severity_counts_of r.findings) "Info" + 1
  rw [severity_counts_get, severity_counts_get, List.countP_append]
  have : List.countP (fun f => coerce_sev f == "Info")
      [(add_finding r module finding now).2] = 1 := by
    simp [List.countP_cons, hco]
  rw [this]
  omega

/-- Claim C7 (witness): adding a finding with severity `"Bogus"` to a fresh
report appends it and bumps the `"Info"` count. -/
theorem severity_coercion_witness :
    dget [("severity", "Bogus")] "severity" "Info"
        ∉ (["Critical", "High", "Medium", "Low", "Info"] : List String) ∧
    ((add_finding (create_report "C" "t" "h") "network" [("severity", "Bogus")] "n").1.findings
        = (create_report "C" "t" "h").findings
          ++ [(add_finding (create_report "C" "t" "h") "network" [("severity", "Bogus")] "n").2] ∧
      cmGet (prepare_visualization_data
            (add_finding (create_report "C" "t" "h") "network" [("severity", "Bogus")] "n").1).severity_counts
          "Info"
        = cmGet (prepare_visualization_data (create_report "C" "t" "h")).severity_counts
            "Info" + 1) :=
  ⟨by decide,
    severity_coercion (create_report "C" "t" "h") "network" "n" [("severity", "Bogus")]
      (by decide)⟩

/-- Claim C8: `add_timeline_event` stores the caller's dict unchanged when it
already carries a `timestamp` (the supplied value is never overwritten), and
only stamps `now` when the key is absent; the stored dict is the appended
element. -/
theorem add_timeline_event_timestamp (r : Report) (event : Dict) (now : String) :
    (add_timeline_event r event now).2
        = (if dHasKey event "timestamp" then event else dset event "timestamp" now) ∧
    (add_timeline_event r event now).1.timeline
        = r.timeline ++ [(add_timeline_event r event now).2] ∧
    dget (add_timeline_event r event now).2 "timestamp" ""
        = (if dHasKey event "timestamp" then dget event "timestamp" "" else now) := by
  refine ⟨rfl, rfl, ?_⟩
  by_cases h : dHasKey event "timestamp" = true
  · simp [add_timeline_event, h]
  · simp [add_timeline_event, h, dget_dset_same]

/-- Claim C9: for each supported format, `save_report` returns
`output_dir/<case_id>_<save_stamp>_report.<ext>` with the save-time stamp
(independent of the report's `created_at`) and the extension fixed by the
format. -/
theorem save_report_filename (dir : String) (r : Report) (stamp : String) :
    save_report dir r "json" stamp
        = some (dir ++ "/" ++ r.case_id ++ "_" ++ stamp ++ "_report.json") ∧
    save_report dir r "html" stamp
        = some (dir ++ "/" ++ r.case_id ++ "_" ++ stamp ++ "_report.html") ∧
    save_report dir r "txt" stamp
        = some (dir ++ "/" ++ r.case_id ++ "_" ++ stamp ++ "_report.txt") :=
  ⟨rfl, rfl, rfl⟩

/-- Claim C10: `add_finding` overwrites the caller dict's `module` and
`timestamp` keys and `add_artifact` overwrites its `timestamp` key, so a
caller-supplied timestamp is always replaced with the insertion time, and the
mutated dict itself is the element appended to the report's sequence. -/
theorem add_mutation_in_place (r : Report) (module now : String)
    (finding artifact : Dict) :
    (add_finding r module finding now).2
        = dset (dset finding "module" module) "timestamp" now ∧
    (add_finding r module finding now).1.findings
        = r.findings ++ [(add_finding r module finding now).2] ∧
    dget (add_finding r module finding now).2 "module" "" = module ∧
    dget (add_finding r module finding now).2 "timestamp" "" = now ∧
    (add_artifact r artifact now).2 = dset artifact "timestamp" now ∧
    (add_artifact r artifact now).1.artifacts
        = r.artifacts ++ [(add_artifact r artifact now).2] ∧
    dget (add_artifact r artifact now).2 "timestamp" "" = now := by
  refine ⟨rfl, rfl, ?_, ?_, rfl, rfl, ?_⟩
  · show dget (dset (dset finding "module" module) "timestamp" now) "module" "" = module
    rw [dget_dset_ne _ _ _ _ _ (by decide), dget_dset_same]
  · exact dget_dset_same _ _ _ _
  · exact dget_dset_same _ _ _ _

end Vivisect
